import Mathlib

/-!
Shallow embedding of `jtolds/webhelp-oauth2` (package `whoauth2`):
the single-provider OAuth2 flow engine `ProviderHandler` (handler.go)
and the multi-provider aggregation layer `ProviderGroup`.

External collaborators (session store, OAuth2 exchange client, HTTP
redirect/error sinks) are modelled as explicit data: a session is the
in-memory value map of `whsess.Session`, the exchange client is a
function parameter, and each handler operation returns a structured
outcome recording exactly the session writes, saves, redirects and
errors the Go code performs.
-/

namespace WhOauth2

/-- Model of `*oauth2.Token` as far as this repository inspects it:
`Token.Valid()` in golang.org/x/oauth2 is
`t != nil && t.AccessToken != "" && !t.expired()`; we snapshot the
expiry comparison against the current clock as the Boolean `expired`. -/
structure Token where
  accessToken : String
  expired : Bool
deriving DecidableEq, Repr

/-- `oauth2.Token.Valid()` (nil-ness is handled by `Option` at use sites). -/
def tokenValid (t : Token) : Bool :=
  t.accessToken != "" && !t.expired

/-- A value stored in `session.Values` (`map[string]interface{}`):
a string, a `*oauth2.Token`, or anything else (for which both type
assertions `val.(string)` and `val.(*oauth2.Token)` fail). -/
inductive SessVal where
  | str (s : String)
  | tok (t : Token)
  | other
deriving DecidableEq, Repr

/-- The value map of one namespace's `whsess.Session`, as an association
list with unique-key update semantics (Go map). -/
abbrev Session := List (String × SessVal)

/-- `session.Values[k]` with its `exists` flag folded into `Option`. -/
def getVal (s : Session) (k : String) : Option SessVal :=
  match s with
  | [] => none
  | (k', v) :: rest => if k' = k then some v else getVal rest k

/-- `session.Values[k] = v` (Go map assignment: replace or insert). -/
def setVal (s : Session) (k : String) (v : SessVal) : Session :=
  match s with
  | [] => [(k, v)]
  | (k', v') :: rest => if k' = k then (k, v) :: rest else (k', v') :: setVal rest k v

/-- The Go comma-ok string type assertion `val.(string)` combined with the
map `exists` flag: `some` exactly when the key is present and holds a string. -/
def asStr (v : Option SessVal) : Option String :=
  match v with
  | some (SessVal.str s) => some s
  | _ => none

/-- `(*ProviderHandler).token(session)` (handler.go): the stored `"_token"`
value if it exists, is a `*oauth2.Token`, and `Valid()`; `nil` otherwise. -/
def token (s : Session) : Option Token :=
  match getVal s "_token" with
  | some (SessVal.tok t) => if tokenValid t then some t else none
  | _ => none

/-- `(*ProviderHandler).LoggedIn`: whether `token` is non-nil. -/
def loggedIn (s : Session) : Bool :=
  (token s).isSome

/-- The per-handler configuration read by the flow operations:
`urls.DefaultLoginURL`, `urls.DefaultLogoutURL` (already defaulted to "/"
by `NewProviderHandler` when empty) and the `accessOffline` flag set by
`RequestOfflineTokens`. -/
structure HandlerCfg where
  defaultLoginURL : String
  defaultLogoutURL : String
  accessOffline : Bool
deriving DecidableEq, Repr

/-- `strconv.ParseBool`: accepts exactly
1, t, T, TRUE, true, True, 0, f, F, FALSE, false, False;
`none` models the error return. -/
def parseBool (s : String) : Option Bool :=
  if s = "1" ∨ s = "t" ∨ s = "T" ∨ s = "TRUE" ∨ s = "true" ∨ s = "True" then
    some true
  else if s = "0" ∨ s = "f" ∨ s = "F" ∨ s = "FALSE" ∨ s = "false" ∨ s = "False" then
    some false
  else
    none

/-- Where `login` sends the user: a plain redirect (`whredir.Redirect` to a
URL), or the provider's authorization endpoint
(`provider.AuthCodeURL(state, opts...)`), recorded as the state together
with the options passed (`AccessTypeOffline` vs `AccessTypeOnline`, and
whether `ApprovalForce` was appended). -/
inductive LoginRedirect where
  | toURL (u : String)
  | toProvider (state : String) (offline : Bool) (approvalForce : Bool)
deriving DecidableEq, Repr

/-- Result of one `login` request: the session value map afterwards, the
value-map snapshot passed to `session.Save` (`none` when `Save` was not
called), and the emitted redirect. -/
structure LoginOutcome where
  finalSession : Session
  savedSession : Option Session
  redirect : LoginRedirect
deriving DecidableEq, Repr

/-- `(*ProviderHandler).login` (handler.go). Parameters mirror the request:
`redirectToParam = r.FormValue("redirect_to")`,
`forcePromptParam = r.FormValue("force_prompt")`; `freshState` stands for
the random `newState()` draw. The session-load and save error branches
surface infrastructure errors and are outside this value-level model
(`Save` is recorded via `savedSession`). -/
def login (cfg : HandlerCfg) (s : Session)
    (redirectToParam forcePromptParam freshState : String) : LoginOutcome :=
  let redirectTo := if redirectToParam = "" then cfg.defaultLoginURL else redirectToParam
  let forcePrompt := (parseBool forcePromptParam).getD false
  if !forcePrompt && (token s).isSome then
    { finalSession := s, savedSession := none, redirect := LoginRedirect.toURL redirectTo }
  else
    let s' := setVal (setVal s "_state" (SessVal.str freshState)) "_redirect_to"
      (SessVal.str redirectTo)
    { finalSession := s', savedSession := some s',
      redirect := LoginRedirect.toProvider freshState cfg.accessOffline forcePrompt }

/-- Result of one `cb` (callback) request. `badRequest msg` is
`wherr.Handle(w, r, wherr.BadRequest.New(msg))`; `exchangeFailed e`
surfaces the `provider.Exchange` error as-is. On both error outcomes the
in-memory session was not mutated and `Save` was not called; `success`
carries the mutated session (which `Save` then persists) and the target
of the final redirect. -/
inductive CbOutcome where
  | badRequest (msg : String)
  | exchangeFailed (e : String)
  | success (finalSession : Session) (redirectTo : String)
deriving DecidableEq, Repr

/-- `(*ProviderHandler).cb` (handler.go). `stateParam`/`codeParam` are
`r.FormValue("state")`/`r.FormValue("code")`; `exch code offline` models
`provider.Exchange(ctx, code, accessType)` where `offline` records
whether `AccessTypeOffline` (vs `AccessTypeOnline`) was passed. -/
def cb (cfg : HandlerCfg) (s : Session) (stateParam codeParam : String)
    (exch : String → Bool → Except String Token) : CbOutcome :=
  match asStr (getVal s "_state") with
  | none => CbOutcome.badRequest "invalid session storage state"
  | some existingState =>
    match asStr (getVal s "_redirect_to") with
    | none => CbOutcome.badRequest "invalid redirect_to"
    | some redirectTo =>
      if existingState ≠ stateParam then
        CbOutcome.badRequest "csrf detected"
      else
        match exch codeParam cfg.accessOffline with
        | Except.error e => CbOutcome.exchangeFailed e
        | Except.ok t =>
          CbOutcome.success (setVal s "_token" (SessVal.tok t)) redirectTo

/-- Result of one `logout` request: the (cleared and saved) session value
map and the target of the redirect. -/
structure LogoutOutcome where
  finalSession : Session
  redirectTo : String
deriving DecidableEq, Repr

/-- `(*ProviderHandler).logout` (handler.go): `Logout` calls
`session.Clear(ctx, w)`, which empties the namespace's whole value map and
persists that; then the handler redirects to `redirect_to`, defaulted to
`urls.DefaultLogoutURL` when empty. -/
def logout (cfg : HandlerCfg) (_s : Session) (redirectToParam : String) : LogoutOutcome :=
  { finalSession := [],
    redirectTo := if redirectToParam = "" then cfg.defaultLogoutURL else redirectToParam }

/-! ### URL builders (`LoginURL`, `LogoutURL`)

`url.Values.Encode` in Go's net/url renders `k=QueryEscape(v)` pairs
joined by `&`, with the keys in sorted (byte-wise lexicographic) order.
`QueryEscape` works on the UTF-8 bytes of the value: bytes in
`[A-Za-z0-9._~-]` pass through, a space becomes `+`, and every other
byte becomes `%XX` with upper-case hex digits. -/

/-- The UTF-8 encoding of one character, as byte values. -/
def utf8Bytes (c : Char) : List Nat :=
  let n := c.toNat
  if n < 0x80 then [n]
  else if n < 0x800 then
    [0xC0 + n / 0x40, 0x80 + n % 0x40]
  else if n < 0x10000 then
    [0xE0 + n / 0x1000, 0x80 + n / 0x40 % 0x40, 0x80 + n % 0x40]
  else
    [0xF0 + n / 0x40000, 0x80 + n / 0x1000 % 0x40, 0x80 + n / 0x40 % 0x40, 0x80 + n % 0x40]

/-- Upper-case hexadecimal digit for `n < 16`. -/
def hexDigit (n : Nat) : Char :=
  if n < 10 then Char.ofNat (48 + n) else Char.ofNat (55 + n)

/-- Whether a byte passes through `url.QueryEscape` unescaped
(alphanumerics and `-`, `_`, `.`, `~`). -/
def unreservedByte (b : Nat) : Bool :=
  (65 ≤ b && b ≤ 90) || (97 ≤ b && b ≤ 122) || (48 ≤ b && b ≤ 57) ||
    b = 45 || b = 95 || b = 46 || b = 126

/-- How `url.QueryEscape` renders one byte. -/
def escapeByte (b : Nat) : String :=
  if b = 32 then "+"
  else if unreservedByte b then String.mk [Char.ofNat b]
  else String.mk [Char.ofNat 37, hexDigit (b / 16), hexDigit (b % 16)]

/-- `url.QueryEscape`. -/
def queryEscape (s : String) : String :=
  String.join ((s.data.flatMap utf8Bytes).map escapeByte)

/-- Byte-wise lexicographic `≤` on characters lists (how `sort.Strings`
orders ASCII keys in `url.Values.Encode`). -/
def charsLe : List Char → List Char → Bool
  | [], _ => true
  | _ :: _, [] => false
  | a :: as, b :: bs =>
    if a.toNat < b.toNat then true
    else if b.toNat < a.toNat then false
    else charsLe as bs

/-- String `≤` used to sort query keys. -/
def strLe (a b : String) : Bool :=
  charsLe a.data b.data

/-- Insert one key-value pair into a key-sorted list. -/
def sortedInsert (p : String × String) : List (String × String) → List (String × String)
  | [] => [p]
  | q :: rest => if strLe p.1 q.1 then p :: q :: rest else q :: sortedInsert p rest

/-- Sort key-value pairs by key (insertion sort). -/
def sortKVs : List (String × String) → List (String × String)
  | [] => []
  | p :: rest => sortedInsert p (sortKVs rest)

/-- `url.Values.Encode` for single-valued keys. -/
def encodeValues (kvs : List (String × String)) : String :=
  String.intercalate "&" ((sortKVs kvs).map (fun p => p.1 ++ "=" ++ queryEscape p.2))

/-- `fmt.Sprint` on a Go bool. -/
def fmtBool (b : Bool) : String :=
  if b then "true" else "false"

/-- `(*ProviderHandler).LoginURL` (handler.go): `base` is the handler's
`handler_base_url` field. -/
def loginURL (base redirectTo : String) (forcePrompt : Bool) : String :=
  base ++ "/login?" ++ encodeValues
    [("redirect_to", redirectTo), ("force_prompt", fmtBool forcePrompt)]

/-- `(*ProviderHandler).LogoutURL` (handler.go). -/
def logoutURL (base redirectTo : String) : String :=
  base ++ "/logout?" ++ encodeValues [("redirect_to", redirectTo)]

/-! ### ProviderGroup (group source file) -/

/-- `(*ProviderGroup).Tokens`: the input pairs each provider name with the
result of that handler's `Token(ctx)` — `Except.error` when the handler's
session load failed, otherwise the loaded session value map. The loop
adds each error to an `errors.ErrorGroup` (modelled as the list of
collected errors; `Finalize` returns nil iff that list is empty) and, on
success with a non-nil token, records the `(name, token)` pair. -/
def groupTokens (hs : List (String × Except String Session)) :
    List (String × Token) × List String :=
  match hs with
  | [] => ([], [])
  | (name, res) :: rest =>
    let acc := groupTokens rest
    match res with
    | Except.error e => (acc.1, e :: acc.2)
    | Except.ok sess =>
      match token sess with
      | some t => ((name, t) :: acc.1, acc.2)
      | none => acc

/-- `(*ProviderGroup).LoggedIn`: `len(tokens) > 0`. -/
def groupLoggedIn (hs : List (String × Except String Session)) : Bool :=
  !(groupTokens hs).1.isEmpty

/-- Go `strings.TrimRight(s, "/")`. -/
def trimRightSlash (s : String) : String :=
  String.mk ((s.data.reverse.dropWhile (fun c => c = '/')).reverse)

/-- What `NewProviderGroup` builds per provider: its name, the handler's
session namespace, and the handler's `handler_base_url` (after
`NewProviderHandler`'s own `strings.TrimRight(handler_base_url, "/")`). -/
structure GroupEntry where
  name : String
  sessionNamespace : String
  handlerBaseURL : String
deriving DecidableEq, Repr

/-- The loop body of `NewProviderGroup`: walk the provider names, failing
on an empty name or on a name already registered, otherwise appending the
handler built from `sessNS + "-" + name` and `gURL + "/" + name`
(`gURL` is the group base URL already right-trimmed of `/`). -/
def npgLoop (sessNS gURL : String) (acc : List GroupEntry) :
    List String → Except String (List GroupEntry)
  | [] => Except.ok acc
  | n :: rest =>
    if n = "" then Except.error "empty provider name"
    else if n ∈ acc.map GroupEntry.name then
      Except.error ("two providers given with name " ++ n)
    else
      npgLoop sessNS gURL
        (acc ++ [⟨n, sessNS ++ "-" ++ n, trimRightSlash (gURL ++ "/" ++ n)⟩]) rest

/-- `NewProviderGroup` (group source file), restricted to the data the
claims inspect: it right-trims `/` from the group base URL, then runs the
registration loop over the provider names. -/
def newProviderGroup (sessNS groupBaseURL : String) (names : List String) :
    Except String (List GroupEntry) :=
  npgLoop sessNS (trimRightSlash groupBaseURL) [] names

/-- Result of calling a method on the `*ProviderHandler` obtained from
`g.handlers[name]`: `ok` when the handler exists, `nilPanic` when the
name is unknown — the map lookup yields a nil pointer and the method body
dereferences it (a runtime panic), which is how the Go code actually
fails there. -/
inductive GoStringResult where
  | ok (s : String)
  | nilPanic
deriving DecidableEq, Repr

/-- A group's handler table for the passthrough operations: provider name
↦ the handler's `handler_base_url`. -/
abbrev GroupHandlers := List (String × String)

/-- `g.handlers[name]` with the `exists` flag, as returned by
`(*ProviderGroup).Handler`. -/
def groupHandler (g : GroupHandlers) (n : String) : Option String :=
  match g with
  | [] => none
  | (n', b) :: rest => if n' = n then some b else groupHandler rest n

/-- `(*ProviderGroup).LoginURL`: `g.handlers[provider_name].LoginURL(...)`
with no existence check — a nil dereference when the name is unknown. -/
def groupLoginURL (g : GroupHandlers) (n redirectTo : String) (forcePrompt : Bool) :
    GoStringResult :=
  match groupHandler g n with
  | some base => GoStringResult.ok (loginURL base redirectTo forcePrompt)
  | none => GoStringResult.nilPanic

/-- `(*ProviderGroup).LogoutURL`: same pattern as `groupLoginURL`. -/
def groupLogoutURL (g : GroupHandlers) (n redirectTo : String) : GoStringResult :=
  match groupHandler g n with
  | some base => GoStringResult.ok (logoutURL base redirectTo)
  | none => GoStringResult.nilPanic

/-! ### Helper lemmas -/

/-- Reading back the key just written by a Go map assignment. -/
theorem getVal_setVal (s : Session) (k : String) (v : SessVal) :
    getVal (setVal s k v) k = some v := by
  induction s with
  | nil => simp [setVal, getVal]
  | cons p rest ih =>
    by_cases h : p.1 = k
    · simp [setVal, getVal, h]
    · simp [setVal, getVal, h, ih]

/-- `parseBool` on the literal `"false"`. -/
theorem parseBool_false_lit : parseBool "false" = some false := by decide

/-! ### Claim theorems -/

/-- C2: if the parsed `force_prompt` is false and the session holds a
stored `_token` of the correct type that is currently valid, `login`
immediately redirects to `redirectTo` (non-empty here) without writing
`_state` or `_redirect_to` (`finalSession` unchanged), without saving,
and without contacting the provider (`toURL`, not `toProvider`);
conversely on a session with no stored credential (missing, wrong type,
or invalid — all collapsed into `token s = none`), `loggedIn` is false
and `login` never takes the short-circuit: it always proceeds to the
provider redirect. -/
theorem login_shortCircuit_iff_validToken (cfg : HandlerCfg) (s : Session)
    (rtp fpp freshState : String) (t : Token) :
    ((parseBool fpp).getD false = false → token s = some t → rtp ≠ "" →
      login cfg s rtp fpp freshState =
        { finalSession := s, savedSession := none,
          redirect := LoginRedirect.toURL rtp }) ∧
    (token s = none →
      loggedIn s = false ∧
      (login cfg s rtp fpp freshState).redirect =
        LoginRedirect.toProvider freshState cfg.accessOffline
          ((parseBool fpp).getD false)) := by
  constructor
  · intro h1 h2 h3
    simp [login, h1, h2, h3]
  · intro h
    refine ⟨by simp [loggedIn, h], ?_⟩
    cases hfp : (parseBool fpp).getD false <;> simp [login, h, hfp]

/-- Witness for C2 at concrete inputs: a session holding a valid token
short-circuits, and the empty session never does. -/
theorem login_shortCircuit_iff_validToken_witness :
    login ⟨"/dl", "/dlo", false⟩ [("_token", SessVal.tok ⟨"at", false⟩)] "/r" "" "NS" =
      { finalSession := [("_token", SessVal.tok ⟨"at", false⟩)], savedSession := none,
        redirect := LoginRedirect.toURL "/r" } ∧
    (loggedIn [] = false ∧
      (login ⟨"/dl", "/dlo", false⟩ [] "/r" "" "NS").redirect =
        LoginRedirect.toProvider "NS" false false) :=
  ⟨(login_shortCircuit_iff_validToken ⟨"/dl", "/dlo", false⟩
      [("_token", SessVal.tok ⟨"at", false⟩)] "/r" "" "NS" ⟨"at", false⟩).1
      (by decide) (by decide) (by decide),
   (login_shortCircuit_iff_validToken ⟨"/dl", "/dlo", false⟩
      [] "/r" "" "NS" ⟨"at", false⟩).2 (by decide)⟩

/-- C3: a `login` call that does not short-circuit (the parsed
`force_prompt` is true, or no valid token is stored) writes the fresh
state under `_state` and the (defaulted) redirect target under
`_redirect_to`, saves exactly that session, and redirects to the
provider's authorization URL built with that state, offline access iff
`accessOffline`, and approval-force iff the parsed `force_prompt`. -/
theorem login_beginsFlow (cfg : HandlerCfg) (s : Session)
    (rtp fpp freshState : String)
    (h : ¬((parseBool fpp).getD false = false ∧ (token s).isSome = true)) :
    login cfg s rtp fpp freshState =
      { finalSession := setVal (setVal s "_state" (SessVal.str freshState))
          "_redirect_to"
          (SessVal.str (if rtp = "" then cfg.defaultLoginURL else rtp)),
        savedSession := some (setVal (setVal s "_state" (SessVal.str freshState))
          "_redirect_to"
          (SessVal.str (if rtp = "" then cfg.defaultLoginURL else rtp))),
        redirect := LoginRedirect.toProvider freshState cfg.accessOffline
          ((parseBool fpp).getD false) } := by
  have hc : (!(parseBool fpp).getD false && (token s).isSome) = false := by
    cases hfp : (parseBool fpp).getD false <;>
      cases hts : (token s).isSome <;> simp_all
  simp [login, hc]

/-- Witness for C3: on the empty session a login with `force_prompt=true`
writes `_state` and `_redirect_to`, saves, and redirects to the provider
with approval-force set. -/
theorem login_beginsFlow_witness :
    login ⟨"/dl", "/dlo", true⟩ [] "/r" "true" "NS" =
      { finalSession := [("_state", SessVal.str "NS"),
          ("_redirect_to", SessVal.str "/r")],
        savedSession := some [("_state", SessVal.str "NS"),
          ("_redirect_to", SessVal.str "/r")],
        redirect := LoginRedirect.toProvider "NS" true true } := by
  have h := login_beginsFlow ⟨"/dl", "/dlo", true⟩ [] "/r" "true" "NS" (by decide)
  simpa using h

/-- C5: `logout` clears every key of the handler's session namespace (the
final value map is empty, so every lookup misses), redirects to
`redirectTo` or to `defaultLogoutURL` when empty, is idempotent
(logging out the already-cleared session yields the same outcome), and
`loggedIn` right after is false — from any prior session state. -/
theorem logout_clearsNamespace (cfg : HandlerCfg) (s : Session) (rtp : String) :
    (logout cfg s rtp).finalSession = [] ∧
    (∀ k, getVal (logout cfg s rtp).finalSession k = none) ∧
    (logout cfg s rtp).redirectTo =
      (if rtp = "" then cfg.defaultLogoutURL else rtp) ∧
    logout cfg (logout cfg s rtp).finalSession rtp = logout cfg s rtp ∧
    loggedIn (logout cfg s rtp).finalSession = false :=
  ⟨rfl, fun _ => rfl, rfl, rfl, rfl⟩

/-- C10: when the `force_prompt` query value is absent (`""`) or fails
`strconv.ParseBool`, `login` behaves exactly as if `force_prompt=false`
had been supplied — the entire outcome (session writes, save, redirect)
coincides; no error outcome exists on this path (the parse error is
swallowed by the code). -/
theorem login_forcePrompt_defaultsFalse (fpp : String) (h : parseBool fpp = none) :
    parseBool "" = none ∧
    ∀ (cfg : HandlerCfg) (s : Session) (rtp freshState : String),
      login cfg s rtp fpp freshState = login cfg s rtp "false" freshState := by
  refine ⟨by decide, fun cfg s rtp freshState => ?_⟩
  simp [login, h, parseBool_false_lit]

/-- Witness for C10: `"banana"` does not parse as a bool, and the login
outcome equals the `force_prompt=false` outcome on a concrete session. -/
theorem login_forcePrompt_defaultsFalse_witness :
    login ⟨"/dl", "/dlo", false⟩ [] "/r" "banana" "NS" =
      login ⟨"/dl", "/dlo", false⟩ [] "/r" "false" "NS" :=
  (login_forcePrompt_defaultsFalse "banana" (by decide)).2
    ⟨"/dl", "/dlo", false⟩ [] "/r" "NS"

/-- C1 counterexample: the three precondition failures do occur in order,
but two of the failure messages quoted by the claim do not match the
code. With `_state` present (a string) and `_redirect_to` absent, `cb`
fails with `"invalid redirect_to"`, not `"invalid redirect target"`; and
the state-mismatch failure message is `"csrf detected"`, not
`"CSRF detected"`. -/
theorem cb_messages_counterexample :
    cb ⟨"/", "/", false⟩ [("_state", SessVal.str "S")] "S" "C"
        (fun _ _ => Except.ok ⟨"at", false⟩) =
      CbOutcome.badRequest "invalid redirect_to" ∧
    "invalid redirect_to" ≠ "invalid redirect target" ∧
    cb ⟨"/", "/", false⟩
        [("_state", SessVal.str "S"), ("_redirect_to", SessVal.str "/r")] "T" "C"
        (fun _ _ => Except.ok ⟨"at", false⟩) =
      CbOutcome.badRequest "csrf detected" ∧
    "csrf detected" ≠ "CSRF detected" := by
  refine ⟨rfl, by decide, rfl, by decide⟩

/-- C1 (amended: the second message is `"invalid redirect_to"` and the
third is `"csrf detected"`): `cb` checks its three preconditions in
order — (1) missing/non-string `_state` fails with
`"invalid session storage state"`; (2) otherwise missing/non-string
`_redirect_to` fails with `"invalid redirect_to"`; (3) otherwise a state
parameter different from the stored `_state` fails with
`"csrf detected"`. Each conclusion holds for every exchange function
(`∀ exch`), so no token exchange is attempted, and the outcome is a
bad-request error, not `success`, so no credential is stored and the
session is not saved. -/
theorem cb_precondition_order (cfg : HandlerCfg) (s : Session)
    (stateParam codeParam : String) :
    (asStr (getVal s "_state") = none →
      ∀ exch, cb cfg s stateParam codeParam exch =
        CbOutcome.badRequest "invalid session storage state") ∧
    (∀ st0, asStr (getVal s "_state") = some st0 →
      asStr (getVal s "_redirect_to") = none →
      ∀ exch, cb cfg s stateParam codeParam exch =
        CbOutcome.badRequest "invalid redirect_to") ∧
    (∀ st0 rt0, asStr (getVal s "_state") = some st0 →
      asStr (getVal s "_redirect_to") = some rt0 →
      st0 ≠ stateParam →
      ∀ exch, cb cfg s stateParam codeParam exch =
        CbOutcome.badRequest "csrf detected") := by
  refine ⟨fun h1 exch => ?_, fun st0 h1 h2 exch => ?_, fun st0 rt0 h1 h2 h3 exch => ?_⟩
  · simp [cb, h1]
  · simp [cb, h1, h2]
  · simp [cb, h1, h2, h3]

/-- Witness for C1 (amended), exercising all three precondition failures
at concrete sessions. -/
theorem cb_precondition_order_witness :
    (cb ⟨"/", "/", false⟩ [] "S" "C" (fun _ _ => Except.ok ⟨"at", false⟩) =
      CbOutcome.badRequest "invalid session storage state") ∧
    (cb ⟨"/", "/", false⟩ [("_state", SessVal.str "S")] "S" "C"
        (fun _ _ => Except.ok ⟨"at", false⟩) =
      CbOutcome.badRequest "invalid redirect_to") ∧
    (cb ⟨"/", "/", false⟩
        [("_state", SessVal.str "S"), ("_redirect_to", SessVal.str "/r")] "T" "C"
        (fun _ _ => Except.ok ⟨"at", false⟩) =
      CbOutcome.badRequest "csrf detected") :=
  ⟨(cb_precondition_order ⟨"/", "/", false⟩ [] "S" "C").1 (by decide) _,
   (cb_precondition_order ⟨"/", "/", false⟩ [("_state", SessVal.str "S")] "S" "C").2.1
      "S" (by decide) (by decide) _,
   (cb_precondition_order ⟨"/", "/", false⟩
      [("_state", SessVal.str "S"), ("_redirect_to", SessVal.str "/r")] "T" "C").2.2
      "S" "/r" (by decide) (by decide) (by decide) _⟩

/-- C4: when the three `cb` preconditions pass, the code is exchanged
using exactly the handler's access-type flag (`cfg.accessOffline` is what
`cb` passes to `exch`); on exchange success the credential is stored
under `_token`, that mutated session is the one saved (`success` carries
it), the redirect goes to the previously stored `_redirect_to`, and —
provided the returned credential passes `oauth2.Token.Valid` —
`loggedIn` on the resulting session is true. On exchange failure the
error is surfaced as-is and the outcome (`exchangeFailed`) carries no
session mutation or save. -/
theorem cb_success_exchange (cfg : HandlerCfg) (s : Session)
    (stateParam codeParam st0 rt0 : String)
    (h1 : asStr (getVal s "_state") = some st0)
    (h2 : asStr (getVal s "_redirect_to") = some rt0)
    (h3 : st0 = stateParam) :
    (∀ exch t, exch codeParam cfg.accessOffline = Except.ok t →
      cb cfg s stateParam codeParam exch =
        CbOutcome.success (setVal s "_token" (SessVal.tok t)) rt0 ∧
      (tokenValid t = true →
        loggedIn (setVal s "_token" (SessVal.tok t)) = true)) ∧
    (∀ exch e, exch codeParam cfg.accessOffline = Except.error e →
      cb cfg s stateParam codeParam exch = CbOutcome.exchangeFailed e) := by
  constructor
  · intro exch t hx
    refine ⟨by simp [cb, h1, h2, h3, hx], fun hv => ?_⟩
    simp [loggedIn, token, getVal_setVal, hv]
  · intro exch e hx
    simp [cb, h1, h2, h3, hx]

/-- Witness for C4: a concrete passing callback stores the token, redirects
to the stored `_redirect_to`, and leaves the session logged in; a failing
exchange surfaces its error. -/
theorem cb_success_exchange_witness :
    (cb ⟨"/", "/", true⟩
        [("_state", SessVal.str "S"), ("_redirect_to", SessVal.str "/r")] "S" "C"
        (fun _ _ => Except.ok ⟨"at", false⟩) =
      CbOutcome.success
        [("_state", SessVal.str "S"), ("_redirect_to", SessVal.str "/r"),
          ("_token", SessVal.tok ⟨"at", false⟩)] "/r" ∧
      loggedIn [("_state", SessVal.str "S"), ("_redirect_to", SessVal.str "/r"),
        ("_token", SessVal.tok ⟨"at", false⟩)] = true) ∧
    cb ⟨"/", "/", true⟩
        [("_state", SessVal.str "S"), ("_redirect_to", SessVal.str "/r")] "S" "C"
        (fun _ _ => Except.error "boom") =
      CbOutcome.exchangeFailed "boom" := by
  have hmain := cb_success_exchange ⟨"/", "/", true⟩
    [("_state", SessVal.str "S"), ("_redirect_to", SessVal.str "/r")] "S" "C" "S" "/r"
    (by decide) (by decide) (by decide)
  have hok := hmain.1 (fun _ _ => Except.ok ⟨"at", false⟩) ⟨"at", false⟩ rfl
  refine ⟨⟨?_, hok.2 (by decide)⟩, hmain.2 (fun _ _ => Except.error "boom") "boom" rfl⟩
  have := hok.1
  simpa [setVal] using this

/-- The token side of `groupTokens` as a `filterMap`: one entry per
handler whose session loaded and whose stored token is present, of the
right type and valid. -/
theorem groupTokens_fst (hs : List (String × Except String Session)) :
    (groupTokens hs).1 = hs.filterMap (fun p =>
      match p.2 with
      | Except.ok sess => (token sess).map (fun t => (p.1, t))
      | Except.error _ => none) := by
  induction hs with
  | nil => rfl
  | cons p rest ih =>
    obtain ⟨name, res⟩ := p
    cases res with
    | error e => simp [groupTokens, ih]
    | ok sess => cases ht : token sess <;> simp [groupTokens, ih, ht]

/-- The error side of `groupTokens` as a `filterMap`: every failed
session lookup contributes its error and nothing else does. -/
theorem groupTokens_snd (hs : List (String × Except String Session)) :
    (groupTokens hs).2 = hs.filterMap (fun p =>
      match p.2 with
      | Except.ok _ => none
      | Except.error e => some e) := by
  induction hs with
  | nil => rfl
  | cons p rest ih =>
    obtain ⟨name, res⟩ := p
    cases res with
    | error e => simp [groupTokens, ih]
    | ok sess => cases ht : token sess <;> simp [groupTokens, ih, ht]

/-- C6: `Tokens` returns exactly the `(providerName, token)` pairs of
handlers whose session held a present, correctly-typed, valid token
(membership characterization plus the two `filterMap` equations showing
handlers after a failing one are still queried: the collected errors and
the collected pairs are independent projections of the whole list, so a
failure contributes an error without suppressing later pairs); the
`ErrorGroup` is empty exactly when no lookup failed, and `LoggedIn` is
true iff the returned mapping is non-empty. -/
theorem groupTokens_spec (hs : List (String × Except String Session)) :
    (∀ n t, (n, t) ∈ (groupTokens hs).1 ↔
      ∃ sess, (n, Except.ok sess) ∈ hs ∧ token sess = some t) ∧
    (groupTokens hs).1 = hs.filterMap (fun p =>
      match p.2 with
      | Except.ok sess => (token sess).map (fun t => (p.1, t))
      | Except.error _ => none) ∧
    (groupTokens hs).2 = hs.filterMap (fun p =>
      match p.2 with
      | Except.ok _ => none
      | Except.error e => some e) ∧
    ((groupTokens hs).2 = [] ↔ ∀ p ∈ hs, ∃ sess, p.2 = Except.ok sess) ∧
    (groupLoggedIn hs = true ↔ (groupTokens hs).1 ≠ []) := by
  refine ⟨fun n t => ?_, groupTokens_fst hs, groupTokens_snd hs, ?_, ?_⟩
  · rw [groupTokens_fst]
    constructor
    · intro h
      rcases List.mem_filterMap.1 h with ⟨⟨n', res⟩, hmem, hf⟩
      cases res with
      | error e => simp at hf
      | ok sess =>
        simp only [Option.map_eq_some'] at hf
        rcases hf with ⟨t', ht', heq⟩
        obtain ⟨rfl, rfl⟩ := Prod.mk.injEq .. ▸ heq
        exact ⟨sess, hmem, ht'⟩
    · rintro ⟨sess, hmem, ht⟩
      exact List.mem_filterMap.2 ⟨(n, Except.ok sess), hmem, by simp [ht]⟩
  · rw [groupTokens_snd]
    constructor
    · intro h p hp
      cases hres : p.2 with
      | error e =>
        exfalso
        have : (e : String) ∈ hs.filterMap (fun p =>
            match p.2 with
            | Except.ok _ => none
            | Except.error e => some e) :=
          List.mem_filterMap.2 ⟨p, hp, by simp [hres]⟩
        rw [h] at this
        simp at this
      | ok sess => exact ⟨sess, rfl⟩
    · intro h
      rw [List.filterMap_eq_nil_iff]
      intro p hp
      rcases h p hp with ⟨sess, hres⟩
      simp [hres]
  · cases hres : (groupTokens hs).1 <;> simp [groupLoggedIn, hres]

/-- `npgLoop` succeeds and appends one entry per name when every name is
non-empty, absent from the accumulator, and the names are duplicate-free. -/
theorem npgLoop_ok (sessNS gURL : String) (names : List String) :
    ∀ (acc : List GroupEntry),
      (∀ n ∈ names, n ≠ "" ∧ n ∉ acc.map GroupEntry.name) → names.Nodup →
      npgLoop sessNS gURL acc names = Except.ok (acc ++ names.map (fun n =>
        ⟨n, sessNS ++ "-" ++ n, trimRightSlash (gURL ++ "/" ++ n)⟩)) := by
  induction names with
  | nil => intro acc _ _; simp [npgLoop]
  | cons n rest ih =>
    intro acc h hnd
    obtain ⟨hne, hnmem⟩ := h n (List.mem_cons_self n rest)
    rw [npgLoop, if_neg hne, if_neg hnmem]
    have hcond : ∀ m ∈ rest, m ≠ "" ∧ m ∉ ((acc ++
        [(⟨n, sessNS ++ "-" ++ n, trimRightSlash (gURL ++ "/" ++ n)⟩ : GroupEntry)]).map
        GroupEntry.name) := by
      intro m hm
      refine ⟨(h m (List.mem_cons_of_mem n hm)).1, ?_⟩
      simp only [List.map_append, List.map_cons, List.map_nil, List.mem_append,
        List.mem_singleton]
      rintro (hacc | rfl)
      · exact (h m (List.mem_cons_of_mem n hm)).2 hacc
      · exact (List.nodup_cons.1 hnd).1 hm
    rw [ih _ hcond (List.nodup_cons.1 hnd).2]
    simp

/-- `npgLoop` fails when some name is empty, duplicated, or already in
the accumulator. -/
theorem npgLoop_err (sessNS gURL : String) (names : List String) :
    ∀ (acc : List GroupEntry),
      ("" ∈ names ∨ ¬ names.Nodup ∨ ∃ n ∈ names, n ∈ acc.map GroupEntry.name) →
      ∃ e, npgLoop sessNS gURL acc names = Except.error e := by
  induction names with
  | nil => intro acc h; simp at h
  | cons n rest ih =>
    intro acc h
    by_cases hne : n = ""
    · subst hne; exact ⟨"empty provider name", by rw [npgLoop, if_pos rfl]⟩
    by_cases hmem : n ∈ acc.map GroupEntry.name
    · exact ⟨"two providers given with name " ++ n,
        by rw [npgLoop, if_neg hne, if_pos hmem]⟩
    rw [npgLoop, if_neg hne, if_neg hmem]
    apply ih
    have haccn : n ∈ ((acc ++
        [(⟨n, sessNS ++ "-" ++ n, trimRightSlash (gURL ++ "/" ++ n)⟩ : GroupEntry)]).map
        GroupEntry.name) := by simp
    rcases h with hemp | hdup | hover
    · rcases List.mem_cons.1 hemp with hn | hrest
      · exact absurd hn.symm hne
      · exact Or.inl hrest
    · by_cases hrnd : rest.Nodup
      · have hnin : n ∈ rest := by
          by_contra hnot
          exact hdup (List.nodup_cons.2 ⟨hnot, hrnd⟩)
        exact Or.inr (Or.inr ⟨n, hnin, haccn⟩)
      · exact Or.inr (Or.inl hrnd)
    · rcases hover with ⟨m, hm, hacc⟩
      rcases List.mem_cons.1 hm with rfl | hrest
      · exact absurd hacc hmem
      · exact Or.inr (Or.inr ⟨m, hrest, by simp [hacc]⟩)

/-- Witness for C6 on a concrete group: a logged-in handler contributes
its pair even though another handler's lookup failed, and the group is
logged in. -/
theorem groupTokens_spec_witness :
    ("a", (⟨"at", false⟩ : Token)) ∈
      (groupTokens [("a", Except.ok [("_token", SessVal.tok ⟨"at", false⟩)]),
        ("b", Except.error "boom")]).1 ∧
    groupLoggedIn [("a", Except.ok [("_token", SessVal.tok ⟨"at", false⟩)]),
        ("b", Except.error "boom")] = true :=
  ⟨((groupTokens_spec [("a", Except.ok [("_token", SessVal.tok ⟨"at", false⟩)]),
        ("b", Except.error "boom")]).1 "a" ⟨"at", false⟩).2
      ⟨[("_token", SessVal.tok ⟨"at", false⟩)],
        List.mem_cons_self _ _, by decide⟩,
   ((groupTokens_spec [("a", Except.ok [("_token", SessVal.tok ⟨"at", false⟩)]),
        ("b", Except.error "boom")]).2.2.2.2).2 (by decide)⟩

/-- C7 counterexample: the handler base URL is not literally
`groupBaseURL + "/" + name` — `NewProviderGroup` first right-trims `/`
from the group base URL (and `NewProviderHandler` right-trims the
result). With `groupBaseURL = "/auth/"` and provider `"google"` the
handler's base URL is `"/auth/google"`, not `"/auth//google"`. -/
theorem newProviderGroup_baseURL_counterexample :
    newProviderGroup "p" "/auth/" ["google"] =
      Except.ok [⟨"google", "p-google", "/auth/google"⟩] ∧
    "/auth/google" ≠ "/auth/" ++ "/" ++ "google" := by
  refine ⟨rfl, by decide⟩

/-- C7 (amended: the handler base URL is built from the group base URL
with trailing `/` right-trimmed, and is itself right-trimmed): group
construction fails iff some provider name is empty or two providers share
a name (a configuration error raised by the constructor, so it cannot
arise at request time); on success every provider named `n` receives the
session namespace `sessNS + "-" + n` and the base URL
`trimRight(trimRight(groupBaseURL, "/") + "/" + n, "/")`. -/
theorem newProviderGroup_spec (sessNS gURL : String) (names : List String) :
    ((∃ e, newProviderGroup sessNS gURL names = Except.error e) ↔
      ("" ∈ names ∨ ¬ names.Nodup)) ∧
    (∀ entries, newProviderGroup sessNS gURL names = Except.ok entries →
      entries = names.map (fun n =>
        ⟨n, sessNS ++ "-" ++ n,
          trimRightSlash (trimRightSlash gURL ++ "/" ++ n)⟩)) := by
  constructor
  · constructor
    · intro ⟨e, he⟩
      by_contra hgood
      push_neg at hgood
      have hok := npgLoop_ok sessNS (trimRightSlash gURL) names []
        (fun n hn => ⟨fun hne => hgood.1 (hne ▸ hn), by simp⟩) hgood.2
      rw [newProviderGroup, hok] at he
      exact Except.noConfusion he
    · intro hbad
      have := npgLoop_err sessNS (trimRightSlash gURL) names []
        (by rcases hbad with h | h
            · exact Or.inl h
            · exact Or.inr (Or.inl h))
      exact this
  · intro entries hok
    by_cases hbad : "" ∈ names ∨ ¬ names.Nodup
    · rcases npgLoop_err sessNS (trimRightSlash gURL) names []
        (by rcases hbad with h | h
            · exact Or.inl h
            · exact Or.inr (Or.inl h)) with ⟨e, he⟩
      rw [newProviderGroup, he] at hok
      exact Except.noConfusion hok
    · push_neg at hbad
      have hgo := npgLoop_ok sessNS (trimRightSlash gURL) names []
        (fun n hn => ⟨fun hne => hbad.1 (hne ▸ hn), by simp⟩) hbad.2
      rw [newProviderGroup, hgo] at hok
      simpa using hok.symm

/-- Witness for C7 (amended), exercising the success equation and (via
the iff, in both directions) a duplicate-name failure. -/
theorem newProviderGroup_spec_witness :
    newProviderGroup "p" "/auth" ["google", "gh"] =
      Except.ok [⟨"google", "p-google", "/auth/google"⟩,
        ⟨"gh", "p-gh", "/auth/gh"⟩] ∧
    (∃ e, newProviderGroup "p" "/auth" ["google", "google"] = Except.error e) := by
  constructor
  · have h := (newProviderGroup_spec "p" "/auth" ["google", "gh"]).2
    cases hres : newProviderGroup "p" "/auth" ["google", "gh"] with
    | error e =>
      exact absurd ((newProviderGroup_spec "p" "/auth" ["google", "gh"]).1.1 ⟨e, hres⟩)
        (by decide)
    | ok entries => rw [h entries hres]; rfl
  · exact (newProviderGroup_spec "p" "/auth" ["google", "google"]).1.2 (by decide)

/-- C8 counterexample: `url.Values.Encode` emits the query keys in sorted
order, so `force_prompt` comes before `redirect_to` — not in the order
the claim states. -/
theorem loginURL_order_counterexample :
    loginURL "/auth/demo" "/x" false =
      "/auth/demo/login?force_prompt=false&redirect_to=%2Fx" ∧
    loginURL "/auth/demo" "/x" false ≠
      "/auth/demo/login?redirect_to=%2Fx&force_prompt=false" := by
  exact ⟨by decide, by decide⟩

/-- C8 (amended: the query parameters appear in sorted key order,
`force_prompt` before `redirect_to`): `LoginURL` and `LogoutURL` are pure
functions of their string/bool arguments (they read no session state —
they are plain Lean functions of those arguments), returning
`base + "/login?force_prompt=" + esc(v) + "&redirect_to=" + esc(v)` and
`base + "/logout?redirect_to=" + esc(v)` with the query values
percent-encoded by `url.QueryEscape`. -/
theorem urlBuilders_spec (base redirectTo : String) (forcePrompt : Bool) :
    loginURL base redirectTo forcePrompt =
      base ++ "/login?force_prompt=" ++ queryEscape (fmtBool forcePrompt) ++
        "&redirect_to=" ++ queryEscape redirectTo ∧
    logoutURL base redirectTo =
      base ++ "/logout?redirect_to=" ++ queryEscape redirectTo ∧
    queryEscape (fmtBool forcePrompt) = fmtBool forcePrompt := by
  refine ⟨?_, ?_, ?_⟩
  · show base ++ "/login?" ++ ("force_prompt" ++ "=" ++ queryEscape (fmtBool forcePrompt)
      ++ "&" ++ ("redirect_to" ++ "=" ++ queryEscape redirectTo)) = _
    simp only [String.append_assoc]
    rfl
  · show base ++ "/logout?" ++ ("redirect_to" ++ "=" ++ queryEscape redirectTo) = _
    simp only [String.append_assoc]
    rfl
  · cases forcePrompt <;> decide

/-- C9 counterexample: for a name not registered in the group,
`(*ProviderGroup).LoginURL` and `LogoutURL` do not report "not found" —
they call a method on the nil pointer returned by the map lookup and
crash (`nilPanic`), while `Handler` is the operation that reports
non-existence. -/
theorem groupURL_unknown_counterexample :
    groupLoginURL [("google", "/auth/google")] "github" "/r" false =
      GoStringResult.nilPanic ∧
    groupLogoutURL [("google", "/auth/google")] "github" "/r" =
      GoStringResult.nilPanic ∧
    groupHandler [("google", "/auth/google")] "github" = none := by
  exact ⟨rfl, rfl, rfl⟩

/-- C9 (amended: only `Handler` reports "not found" for an unknown name;
`LoginURL`/`LogoutURL` delegate when the name is registered and fail by
dereferencing the nil handler pointer — a panic — when it is not):
the three passthroughs agree with the lookup in `g.handlers`. -/
theorem groupPassthrough_spec (g : GroupHandlers) (n redirectTo : String)
    (forcePrompt : Bool) :
    (∀ base, groupHandler g n = some base →
      groupLoginURL g n redirectTo forcePrompt =
        GoStringResult.ok (loginURL base redirectTo forcePrompt) ∧
      groupLogoutURL g n redirectTo = GoStringResult.ok (logoutURL base redirectTo)) ∧
    (groupHandler g n = none →
      groupLoginURL g n redirectTo forcePrompt = GoStringResult.nilPanic ∧
      groupLogoutURL g n redirectTo = GoStringResult.nilPanic) := by
  constructor
  · intro base h
    exact ⟨by simp [groupLoginURL, h], by simp [groupLogoutURL, h]⟩
  · intro h
    exact ⟨by simp [groupLoginURL, h], by simp [groupLogoutURL, h]⟩

/-- Witness for C9 (amended): delegation for a registered name and the
nil-pointer failure for an unknown one, on a concrete group. -/
theorem groupPassthrough_spec_witness :
    (groupLoginURL [("google", "/auth/google")] "google" "/r" false =
      GoStringResult.ok (loginURL "/auth/google" "/r" false) ∧
     groupLogoutURL [("google", "/auth/google")] "google" "/r" =
      GoStringResult.ok (logoutURL "/auth/google" "/r")) ∧
    (groupLoginURL [("google", "/auth/google")] "gh" "/r" false =
      GoStringResult.nilPanic ∧
     groupLogoutURL [("google", "/auth/google")] "gh" "/r" =
      GoStringResult.nilPanic) :=
  ⟨(groupPassthrough_spec [("google", "/auth/google")] "google" "/r" false).1
      "/auth/google" rfl,
   (groupPassthrough_spec [("google", "/auth/google")] "gh" "/r" false).2 rfl⟩

end WhOauth2
